import Mathlib

/-!
Verification of the MQTT configuration module (`src/conf/mqtt_conf_params.py`)
of the laboratory-python-mqtt repository.

The module is a single Python class `MqttConfigurationParameters` holding
eight class attributes, one of which (`MQTT_BASIC_TOPIC`) is derived by
`"/iot/user/{0}".format(MQTT_USERNAME)` at class-definition time.
We embed the record as a Lean structure and Python's single-placeholder
`str.format` as an executable replacement function over character lists.
-/

/-- Replaces every occurrence of the three-character placeholder
`{0}` (left brace, digit zero, right brace) in a character list
by the characters of `arg`, mirroring what Python's
`str.format` does on a template whose only field is `{0}`. -/
def formatAux (arg : List Char) : List Char → List Char
  | [] => []
  | [c] => [c]
  | [c, c2] => [c, c2]
  | c :: c2 :: c3 :: rest =>
    if c = Char.ofNat 123 ∧ c2 = Char.ofNat 48 ∧ c3 = Char.ofNat 125 then
      arg ++ formatAux arg rest
    else c :: formatAux arg (c2 :: c3 :: rest)

/-- Python's `template.format(arg)` for a template whose only
replacement field is `{0}`. -/
def pyFormat1 (template arg : String) : String :=
  String.mk (formatAux arg.data template.data)

/-- The record of configuration attributes defined by the Python class
`MqttConfigurationParameters` (`src/conf/mqtt_conf_params.py`, lines 1-10). -/
structure MqttConfigurationParameters where
  BROKER_ADDRESS : String
  BROKER_PORT : Int
  MQTT_USERNAME : String
  MQTT_PASSWORD : String
  MQTT_BASIC_TOPIC : String
  VEHICLE_TOPIC : String
  VEHICLE_TELEMETRY_TOPIC : String
  VEHICLE_INFO_TOPIC : String
  deriving DecidableEq, Repr

/-- Building the configuration record exactly as the Python class body
does: attributes are evaluated top to bottom, and `MQTT_BASIC_TOPIC` is
computed from the value that `MQTT_USERNAME` holds at that moment via
`"/iot/user/{0}".format(MQTT_USERNAME)`.  The `Unit` argument models
one elaboration of the class body (one import / instantiation). -/
def mkMqttConfigurationParameters (_ : Unit) : MqttConfigurationParameters :=
  let broker_address := "<BROKER_IP_ADDRESS>"
  let broker_port : Int := 7883
  let mqtt_username := "<your_username>"
  let mqtt_password := "<your_password>"
  let mqtt_basic_topic := pyFormat1 "/iot/user/{0}" mqtt_username
  { BROKER_ADDRESS := broker_address
    BROKER_PORT := broker_port
    MQTT_USERNAME := mqtt_username
    MQTT_PASSWORD := mqtt_password
    MQTT_BASIC_TOPIC := mqtt_basic_topic
    VEHICLE_TOPIC := "vehicle"
    VEHICLE_TELEMETRY_TOPIC := "telemetry"
    VEHICLE_INFO_TOPIC := "info" }

/-- The configuration record as defined in the source. -/
def mqttConfigurationParameters : MqttConfigurationParameters :=
  mkMqttConfigurationParameters ()

/-- Reassignment of the `MQTT_USERNAME` class attribute after the class
body has been evaluated (Python `MqttConfigurationParameters.MQTT_USERNAME = u`):
only that field changes, nothing is re-derived. -/
def setUsername (c : MqttConfigurationParameters) (u : String) :
    MqttConfigurationParameters :=
  { c with MQTT_USERNAME := u }

/-- Python `getattr` restricted to the eight attribute names the class
defines: a defined name yields its value (a string or an integer),
any other name yields `none` (Python would raise `AttributeError`). -/
def getattrConf (c : MqttConfigurationParameters) (name : String) :
    Option (String ⊕ Int) :=
  if name = "BROKER_ADDRESS" then some (Sum.inl c.BROKER_ADDRESS)
  else if name = "BROKER_PORT" then some (Sum.inr c.BROKER_PORT)
  else if name = "MQTT_USERNAME" then some (Sum.inl c.MQTT_USERNAME)
  else if name = "MQTT_PASSWORD" then some (Sum.inl c.MQTT_PASSWORD)
  else if name = "MQTT_BASIC_TOPIC" then some (Sum.inl c.MQTT_BASIC_TOPIC)
  else if name = "VEHICLE_TOPIC" then some (Sum.inl c.VEHICLE_TOPIC)
  else if name = "VEHICLE_TELEMETRY_TOPIC" then some (Sum.inl c.VEHICLE_TELEMETRY_TOPIC)
  else if name = "VEHICLE_INFO_TOPIC" then some (Sum.inl c.VEHICLE_INFO_TOPIC)
  else none

/-- A field read as a state-passing operation: it returns the looked-up
value together with the (necessarily untouched) record. -/
def readAttr (c : MqttConfigurationParameters) (name : String) :
    Option (String ⊕ Int) × MqttConfigurationParameters :=
  (getattrConf c name, c)

/-- The eight attribute names defined by the class body. -/
def confAttrNames : List String :=
  ["BROKER_ADDRESS", "BROKER_PORT", "MQTT_USERNAME", "MQTT_PASSWORD",
   "MQTT_BASIC_TOPIC", "VEHICLE_TOPIC", "VEHICLE_TELEMETRY_TOPIC",
   "VEHICLE_INFO_TOPIC"]

/-- C1: formatting the template `/iot/user/{0}` with any username `u`
yields the fixed prefix `/iot/user/` followed by `u`; in particular the
defined `MQTT_BASIC_TOPIC` is `/iot/user/` ++ `MQTT_USERNAME`, and for
`u = "alice"` the derived topic is `/iot/user/alice`. -/
theorem basic_topic_is_prefix_append_username :
    (∀ u : String, pyFormat1 "/iot/user/{0}" u = "/iot/user/" ++ u) ∧
    mqttConfigurationParameters.MQTT_BASIC_TOPIC =
      "/iot/user/" ++ mqttConfigurationParameters.MQTT_USERNAME ∧
    pyFormat1 "/iot/user/{0}" "alice" = "/iot/user/alice" := by
  have hfmt : ∀ u : String, pyFormat1 "/iot/user/{0}" u = "/iot/user/" ++ u := by
    intro u
    obtain ⟨l⟩ := u
    show String.mk (formatAux l ("/iot/user/{0}".data)) =
      String.mk ("/iot/user/".data ++ l)
    have h : formatAux l ("/iot/user/{0}".data) =
        "/iot/user/".data ++ (l ++ []) := rfl
    simp [h]
  refine ⟨hfmt, ?_, hfmt "alice"⟩
  exact hfmt "<your_username>"

/-- C2: `MQTT_BASIC_TOPIC` is fixed at definition time: reassigning the
`MQTT_USERNAME` field afterwards changes that field to the new value and
nothing else; in particular the basic topic keeps the value derived from
the definition-time username. -/
theorem setUsername_frame (c : MqttConfigurationParameters) (u : String) :
    (setUsername c u).MQTT_USERNAME = u ∧
    (setUsername c u).MQTT_BASIC_TOPIC = c.MQTT_BASIC_TOPIC ∧
    (setUsername c u).BROKER_ADDRESS = c.BROKER_ADDRESS ∧
    (setUsername c u).BROKER_PORT = c.BROKER_PORT ∧
    (setUsername c u).MQTT_PASSWORD = c.MQTT_PASSWORD ∧
    (setUsername c u).VEHICLE_TOPIC = c.VEHICLE_TOPIC ∧
    (setUsername c u).VEHICLE_TELEMETRY_TOPIC = c.VEHICLE_TELEMETRY_TOPIC ∧
    (setUsername c u).VEHICLE_INFO_TOPIC = c.VEHICLE_INFO_TOPIC ∧
    (setUsername mqttConfigurationParameters u).MQTT_BASIC_TOPIC =
      pyFormat1 "/iot/user/{0}" "<your_username>" :=
  ⟨rfl, rfl, rfl, rfl, rfl, rfl, rfl, rfl, rfl⟩

/-- C3: `BROKER_PORT` is the integer 7883, which is positive and lies in
the valid network port range 1..65535. -/
theorem broker_port_valid :
    mqttConfigurationParameters.BROKER_PORT = 7883 ∧
    1 ≤ mqttConfigurationParameters.BROKER_PORT ∧
    mqttConfigurationParameters.BROKER_PORT ≤ 65535 := by decide

/-- C4: the three topic segment constants hold exactly the literals
`"vehicle"`, `"telemetry"` and `"info"`. -/
theorem vehicle_topic_segments :
    mqttConfigurationParameters.VEHICLE_TOPIC = "vehicle" ∧
    mqttConfigurationParameters.VEHICLE_TELEMETRY_TOPIC = "telemetry" ∧
    mqttConfigurationParameters.VEHICLE_INFO_TOPIC = "info" := by decide

/-- C5: every topic segment constant is a non-empty string.  Freedom from
side effects holds by construction: the record is built by the pure
function `mkMqttConfigurationParameters` from string literals alone, and
`getattrConf` returns each stored literal unchanged. -/
theorem topic_segments_nonempty :
    mqttConfigurationParameters.VEHICLE_TOPIC ≠ "" ∧
    mqttConfigurationParameters.VEHICLE_TELEMETRY_TOPIC ≠ "" ∧
    mqttConfigurationParameters.VEHICLE_INFO_TOPIC ≠ "" ∧
    getattrConf mqttConfigurationParameters "VEHICLE_TOPIC" =
      some (Sum.inl "vehicle") ∧
    getattrConf mqttConfigurationParameters "VEHICLE_TELEMETRY_TOPIC" =
      some (Sum.inl "telemetry") ∧
    getattrConf mqttConfigurationParameters "VEHICLE_INFO_TOPIC" =
      some (Sum.inl "info") := by decide

/-- C6: the configuration holder is deterministic: any two elaborations
of the class body (re-import, re-instantiation) produce identical
records, every field included, and each equals the canonical record.
The builder takes no input other than `Unit`, so no environment,
randomness or prior access can influence the values. -/
theorem config_deterministic (x y : Unit) :
    mkMqttConfigurationParameters x = mkMqttConfigurationParameters y ∧
    mkMqttConfigurationParameters x = mqttConfigurationParameters := by
  cases x
  cases y
  exact ⟨rfl, rfl⟩

/-- C7: the address and credential fields hold exactly the placeholder
literals, and reading them back through `getattrConf` returns them
unchanged (no validation or transformation is applied). -/
theorem placeholder_credentials :
    mqttConfigurationParameters.BROKER_ADDRESS = "<BROKER_IP_ADDRESS>" ∧
    mqttConfigurationParameters.MQTT_USERNAME = "<your_username>" ∧
    mqttConfigurationParameters.MQTT_PASSWORD = "<your_password>" ∧
    getattrConf mqttConfigurationParameters "BROKER_ADDRESS" =
      some (Sum.inl "<BROKER_IP_ADDRESS>") ∧
    getattrConf mqttConfigurationParameters "MQTT_USERNAME" =
      some (Sum.inl "<your_username>") ∧
    getattrConf mqttConfigurationParameters "MQTT_PASSWORD" =
      some (Sum.inl "<your_password>") := by decide

/-- C8: reading any of the eight named fields is total and read-only:
the lookup succeeds with some value and the record passed back out is
the record passed in. -/
theorem readAttr_total_pure (c : MqttConfigurationParameters)
    (name : String) (h : name ∈ confAttrNames) :
    (∃ v, (readAttr c name).1 = some v) ∧ (readAttr c name).2 = c := by
  refine ⟨?_, rfl⟩
  fin_cases h <;> exact ⟨_, rfl⟩

/-- Witness for C8 at the concrete record and the name `BROKER_PORT`. -/
theorem readAttr_total_pure_witness :
    "BROKER_PORT" ∈ confAttrNames ∧
    ((∃ v, (readAttr mqttConfigurationParameters "BROKER_PORT").1 = some v) ∧
     (readAttr mqttConfigurationParameters "BROKER_PORT").2 =
       mqttConfigurationParameters) :=
  ⟨by decide,
   readAttr_total_pure mqttConfigurationParameters "BROKER_PORT" (by decide)⟩

/-- C9: the concrete value of `MQTT_BASIC_TOPIC` is
`/iot/user/<your_username>`: the placeholder username is baked into the
derived topic, so the topic itself contains placeholder text. -/
theorem basic_topic_value_placeholder :
    mqttConfigurationParameters.MQTT_BASIC_TOPIC =
      "/iot/user/<your_username>" ∧
    mqttConfigurationParameters.MQTT_BASIC_TOPIC =
      "/iot/user/" ++ "<your_username>" := by decide

/-- C10: none of the three segment constants contains the slash
character (code 47); the basic topic starts with a slash and does not
end with one, so consumers must insert the separators themselves. -/
theorem topic_separator_shape :
    Char.ofNat 47 ∉ mqttConfigurationParameters.VEHICLE_TOPIC.data ∧
    Char.ofNat 47 ∉ mqttConfigurationParameters.VEHICLE_TELEMETRY_TOPIC.data ∧
    Char.ofNat 47 ∉ mqttConfigurationParameters.VEHICLE_INFO_TOPIC.data ∧
    mqttConfigurationParameters.MQTT_BASIC_TOPIC.data.head? =
      some (Char.ofNat 47) ∧
    mqttConfigurationParameters.MQTT_BASIC_TOPIC.data.getLast? ≠
      some (Char.ofNat 47) := by decide
